import Mathlib

/-!
Shallow embedding of the account/entitlement engine of the substack_digest
repository (src/manage_feeds.py, src/stripe_webhook.py, and the message
router of src/substack_to_telegram.py), together with proofs of the spec's
claims about it.

Modelling conventions:
* Python `dict`s persisted as JSON files become association lists
  (`List (String × _)`) with first-match lookup and first-match replacement
  (`getEntry` / `setEntry`); insertion appends at the end, matching dict
  insertion order.
* Clock readings (`time.time()`, `datetime.now(timezone.utc)`) become an
  explicit `now : Int` argument (seconds); ISO-8601 expiry strings are
  modelled as the instant they denote (`Option Int`, `none` for JSON null).
  The `try/except` branch for an unparseable stored expiry string is not
  exercised by any claim.
* `str(user_id)` normalisation is the identity: identities are `String`
  throughout.
* Python truthiness of an optional string (`None` and `""` are falsy) is
  `truthyOpt`.
* HMAC-SHA256 (from Python's `hmac`/`hashlib`, external to the repository)
  is an abstract parameter `hmacHex : String → String → String` taking the
  secret and the signed payload to a hex digest; `hmac.compare_digest` is
  string equality.
* Network side effects (Telegram sends, Stripe API calls) are recorded as
  `Effect` values or dropped where no claim mentions them; file writes
  (`save_state`, `save_config`, ...) are the returned `World`.
-/

namespace SubstackDigest

/-- First-match lookup in an association list (Python dict read). -/
def getEntry {α : Type} : List (String × α) → String → Option α
  | [], _ => none
  | (k, v) :: rest, key => if k = key then some v else getEntry rest key

/-- First-match replacement, appending at the end when the key is absent
(Python dict write; stores built by these operations never duplicate keys). -/
def setEntry {α : Type} : List (String × α) → String → α → List (String × α)
  | [], key, v => [(key, v)]
  | (k, v0) :: rest, key, v =>
      if k = key then (key, v) :: rest else (k, v0) :: setEntry rest key v

/-- Python truthiness of an optional string: `None` and `""` are falsy. -/
def truthyOpt : Option String → Bool
  | none => false
  | some s => !(s == "")

/-- Python `str.startswith` (char-list based). -/
def strStartsWith (s pre : String) : Bool := pre.data.isPrefixOf s.data

/-- Python `str.lower` (char-list based; the identifiers involved are ASCII). -/
def strToLower (s : String) : String := ⟨s.data.map Char.toLower⟩

/-- Python `str.strip` (char-list based). -/
def strTrim (s : String) : String :=
  ⟨((s.data.dropWhile Char.isWhitespace).reverse.dropWhile Char.isWhitespace).reverse⟩

/-- Split a char list on a separator character (`str.split(sep)` for the
one-character separators used by the code). -/
def splitOnCharAux (sep : Char) : List Char → List (List Char)
  | [] => [[]]
  | c :: cs =>
    let r := splitOnCharAux sep cs
    if c == sep then [] :: r
    else
      match r with
      | [] => [[c]]
      | g :: gs => (c :: g) :: gs

/-- Python `str.split(sep)` for a one-character separator. -/
def strSplitOnChar (sep : Char) (s : String) : List String :=
  (splitOnCharAux sep s.data).map (fun l => ⟨l⟩)

/-- Python `f"{x}"` applied to an optional string (`None` prints as "None"). -/
def pyStr : Option String → String
  | none => "None"
  | some s => s

/-- Tier definition: one entry of the `TIERS` dict in manage_feeds.py. -/
structure TierDef where
  max_feeds : Nat
  digest_frequency : String
  ai_summaries : Bool
  price_monthly : Nat
deriving Repr, DecidableEq

/-- Embeds `TIERS["free"]`. -/
def tierFree : TierDef :=
  { max_feeds := 3, digest_frequency := "daily", ai_summaries := false, price_monthly := 0 }

/-- Embeds `TIERS["pro"]`. -/
def tierPro : TierDef :=
  { max_feeds := 50, digest_frequency := "custom", ai_summaries := true, price_monthly := 1 }

/-- Embeds `TIERS.get(name)` in manage_feeds.py. -/
def TIERS_get : String → Option TierDef
  | t => if t = "free" then some tierFree else if t = "pro" then some tierPro else none

/-- Embeds `RATE_LIMITS["commands_per_minute"]`. -/
def commands_per_minute : Nat := 10

/-- Embeds `RATE_LIMITS["feeds_add_per_hour"]`. -/
def feeds_add_per_hour : Nat := 20

/-- Embeds `RATE_LIMITS["digest_requests_per_hour"]`. -/
def digest_requests_per_hour : Nat := 5

/-- The `"subscription"` sub-dict of a user record. -/
structure Subscription where
  tier : String
  stripe_customer_id : Option String
  stripe_subscription_id : Option String
  expires_at : Option Int
  created_at : Int
deriving Repr, DecidableEq

/-- The three timestamp-list keys of the `"rate_limits"` sub-dict. -/
inductive RlKey
  | command_ts
  | feed_add_ts
  | digest_req_ts
deriving Repr, DecidableEq

/-- The `"rate_limits"` sub-dict of a user record. -/
structure RateLimitsRec where
  command_timestamps : List Int
  feed_add_timestamps : List Int
  digest_request_timestamps : List Int
deriving Repr, DecidableEq

def RateLimitsRec.get (r : RateLimitsRec) : RlKey → List Int
  | .command_ts => r.command_timestamps
  | .feed_add_ts => r.feed_add_timestamps
  | .digest_req_ts => r.digest_request_timestamps

def RateLimitsRec.set (r : RateLimitsRec) : RlKey → List Int → RateLimitsRec
  | .command_ts, l => { r with command_timestamps := l }
  | .feed_add_ts, l => { r with feed_add_timestamps := l }
  | .digest_req_ts, l => { r with digest_request_timestamps := l }

/-- The `"security"` sub-dict of a user record. -/
structure SecurityRec where
  blocked : Bool
  block_reason : Option String
  failed_attempts : Nat
deriving Repr, DecidableEq

/-- One entry of `user_state.json` (`ensure_user`'s shape in manage_feeds.py). -/
structure UserRec where
  feeds : List String
  digest_time : String
  last_sent_date : Option String
  summary_format : String
  custom_prompt : Option String
  subscription : Subscription
  rate_limits : RateLimitsRec
  security : SecurityRec
deriving Repr, DecidableEq

/-- Embeds `bot_config.json`: owner and admins. -/
structure BotConfig where
  owner_id : Option String
  admins : List String
deriving Repr, DecidableEq

/-- One entry of `username_map.json`. -/
structure UMapEntry where
  user_id : String
  username : String
  first_name : Option String
  last_seen : Int
deriving Repr, DecidableEq

/-- One entry of `analytics.json`'s `"payments"` list (`record_payment`). -/
structure PaymentRec where
  user_id : String
  username : Option String
  amount : Int
  currency : String
  payment_id : Option String
  timestamp : Int
deriving Repr, DecidableEq

/-- One entry of `analytics.json`'s `"events"` list (`record_event`). -/
structure EventRec where
  type : String
  user_id : Option String
  details : Option String
  timestamp : Int
deriving Repr, DecidableEq

/-- Embeds `analytics.json`. -/
structure Analytics where
  payments : List PaymentRec
  events : List EventRec
deriving Repr, DecidableEq

/-- The persisted world: the four JSON files manage_feeds.py reads and writes. -/
structure World where
  state : List (String × UserRec)
  config : BotConfig
  usernameMap : List (String × UMapEntry)
  analytics : Analytics
deriving Repr, DecidableEq

/-- The default record `ensure_user` creates for a new user. -/
def defaultUser (now : Int) : UserRec :=
  { feeds := []
    digest_time := "08:00"
    last_sent_date := none
    summary_format := "scqr"
    custom_prompt := none
    subscription :=
      { tier := "free"
        stripe_customer_id := none
        stripe_subscription_id := none
        expires_at := none
        created_at := now }
    rate_limits :=
      { command_timestamps := []
        feed_add_timestamps := []
        digest_request_timestamps := [] }
    security := { blocked := false, block_reason := none, failed_attempts := 0 } }

/-- Embeds `ensure_user` (manage_feeds.py): create the default record if absent. -/
def ensure_user (now : Int) (uid : String) (st : List (String × UserRec)) :
    List (String × UserRec) :=
  match getEntry st uid with
  | some _ => st
  | none => st ++ [(uid, defaultUser now)]

/-- Embeds `get_owner_id` (manage_feeds.py). -/
def get_owner_id (w : World) : Option String := w.config.owner_id

/-- Embeds `set_owner_id` (manage_feeds.py): store the owner only if not already set
(Python truthiness: `None` and `""` both count as unset). -/
def set_owner_id (uid : String) (w : World) : World :=
  if truthyOpt w.config.owner_id then w
  else { w with config := { w.config with owner_id := some uid } }

/-- Embeds `is_owner` (manage_feeds.py). -/
def is_owner (uid : String) (w : World) : Bool :=
  match w.config.owner_id with
  | none => false
  | some o => uid == o

/-- Embeds `is_admin` (manage_feeds.py). -/
def is_admin (uid : String) (w : World) : Bool :=
  w.config.admins.contains uid

/-- Embeds `is_privileged` (manage_feeds.py). -/
def is_privileged (uid : String) (w : World) : Bool :=
  is_owner uid w || is_admin uid w

/-- Python `str.lstrip("@")`: drop every leading `'@'`. -/
def lstripAt (s : String) : String := ⟨s.data.dropWhile (· == '@')⟩

/-- Embeds `register_user` (manage_feeds.py): record the handle mapping; a missing or
empty username is a no-op. -/
def register_user (now : Int) (uid : String) (username first_name : Option String)
    (w : World) : World :=
  if !truthyOpt username then w
  else
    let uname := pyStr username
    let key := lstripAt (strToLower uname)
    let entry : UMapEntry :=
      { user_id := uid, username := uname, first_name := first_name, last_seen := now }
    { w with usernameMap := setEntry w.usernameMap key entry }

/-- Embeds `get_user_id_by_username` (manage_feeds.py). -/
def get_user_id_by_username (username : String) (w : World) : Option String :=
  (getEntry w.usernameMap (lstripAt (strToLower username))).map (·.user_id)

/-- Embeds `get_username_by_user_id` (manage_feeds.py): first map entry (insertion
order) whose `user_id` matches. -/
def get_username_by_user_id (uid : String) (w : World) : Option String :=
  ((w.usernameMap.find? (fun p => p.2.user_id == uid)).map (·.2.username))

/-- Failure message of `add_admin` for an unresolvable handle. -/
def usernameNotFoundMsg (identifier : String) : String :=
  "Username " ++ identifier ++ " not found. They need to message the bot first."

/-- Failure message of `add_admin` for a duplicate admin. -/
def alreadyAdminMsg (display : String) : String :=
  display ++ " is already an admin."

/-- The `display` string `add_admin` builds from an optional username. -/
def adminDisplay (username : Option String) (uid : String) : String :=
  if truthyOpt username then "@" ++ pyStr username else uid

/-- The identifier-resolution step of `add_admin` (manage_feeds.py): a
handle (leading `"@"`) is looked up in the directory (`none` when unknown),
a raw identity is taken as-is with its reverse-looked-up handle. -/
def resolve_admin_identifier (identifier : String) (w : World) :
    Option (String × Option String) :=
  if strStartsWith identifier "@" then
    match get_user_id_by_username identifier w with
    | none => none
    | some uid => some (uid, some identifier)
  else some (identifier, get_username_by_user_id identifier w)

/-- Embeds `add_admin` (manage_feeds.py). -/
def add_admin (identifier : String) (w : World) : (Bool × String) × World :=
  let admins := w.config.admins
  match resolve_admin_identifier identifier w with
  | none => ((false, usernameNotFoundMsg identifier), w)
  | some (uid, username) =>
    if is_owner uid w then ((false, "Cannot add owner as admin."), w)
    else if admins.contains uid then
      ((false, alreadyAdminMsg (adminDisplay username uid)), w)
    else
      ((true, adminDisplay username uid ++ " now has free Pro access."),
        { w with config := { w.config with admins := admins ++ [uid] } })

/-- Embeds `is_user_blocked` (manage_feeds.py): `ensure_user`, then read the
`security` sub-dict (the `"Account suspended."` default of `.get` never
applies because the key is always present, so a `None` reason is returned
as-is). -/
def is_user_blocked (now : Int) (uid : String) (w : World) :
    (Bool × Option String) × World :=
  let st := ensure_user now uid w.state
  let u := (getEntry st uid).getD (defaultUser now)
  let w := { w with state := st }
  if u.security.blocked then ((true, u.security.block_reason), w)
  else ((false, none), w)

/-- Embeds `block_user` (manage_feeds.py). -/
def block_user (now : Int) (uid : String) (reason : String) (w : World) : World :=
  let st := ensure_user now uid w.state
  let u := (getEntry st uid).getD (defaultUser now)
  let u' :=
    { u with security := { u.security with blocked := true, block_reason := some reason } }
  { w with state := setEntry st uid u' }

/-- The `limits_config` dict inside `check_rate_limit` (manage_feeds.py):
action class to (timestamp key, window seconds, max requests). -/
def limits_config (action : String) : Option (RlKey × Int × Nat) :=
  if action = "command" then some (.command_ts, 60, commands_per_minute)
  else if action = "feed_add" then some (.feed_add_ts, 3600, feeds_add_per_hour)
  else if action = "digest_request" then
    some (.digest_req_ts, 3600, digest_requests_per_hour)
  else none

/-- Embeds `check_rate_limit` (manage_feeds.py): privileged identities bypass;
otherwise prune the stored timestamp list to the window, deny (persisting
nothing beyond `ensure_user`) when the pruned count reaches the ceiling, else
persist the pruned list with `now` appended. -/
def check_rate_limit (now : Int) (uid action : String) (w : World) :
    (Bool × Option String) × World :=
  if is_privileged uid w then ((true, none), w)
  else
    let st := ensure_user now uid w.state
    let w := { w with state := st }
    match limits_config action with
    | none => ((true, none), w)
    | some (key, window_seconds, max_requests) =>
      let u := (getEntry st uid).getD (defaultUser now)
      let timestamps := (u.rate_limits.get key).filter (fun ts => now - ts < window_seconds)
      if max_requests ≤ timestamps.length then
        let wait_time := window_seconds - (now - timestamps.headD 0)
        ((false, some ("Rate limit exceeded. Try again in " ++ toString wait_time ++ " seconds.")), w)
      else
        let u' := { u with rate_limits := u.rate_limits.set key (timestamps ++ [now]) }
        ((true, none), { w with state := setEntry st uid u' })

/-- Embeds `get_subscription` (manage_feeds.py). -/
def get_subscription (now : Int) (uid : String) (w : World) : Subscription × World :=
  let st := ensure_user now uid w.state
  (((getEntry st uid).getD (defaultUser now)).subscription, { w with state := st })

/-- Embeds `downgrade_to_free` (manage_feeds.py): no-op for privileged identities;
otherwise reset the subscription to free and truncate the feed list to the
free quota, keeping the earliest-added feeds. -/
def downgrade_to_free (now : Int) (uid : String) (w : World) : World :=
  if is_privileged uid w then w
  else
    let st := ensure_user now uid w.state
    let u := (getEntry st uid).getD (defaultUser now)
    let u := { u with subscription :=
        { u.subscription with tier := "free", expires_at := none, stripe_subscription_id := none } }
    let st := setEntry st uid u
    let max_feeds := tierFree.max_feeds
    if max_feeds < u.feeds.length then
      let u' := { u with feeds := u.feeds.take max_feeds }
      { w with state := setEntry st uid u' }
    else { w with state := st }

/-- Embeds `get_tier_limits` (manage_feeds.py): privileged identities always get Pro;
a non-free tier whose set expiry is strictly in the past is lazily downgraded
(persisted) before answering. -/
def get_tier_limits (now : Int) (uid : String) (w : World) : TierDef × World :=
  if is_privileged uid w then (tierPro, w)
  else
    let (sub, w) := get_subscription now uid w
    let tier := sub.tier
    let tw : String × World :=
      match sub.expires_at with
      | some expiry =>
        if tier ≠ "free" ∧ expiry < now then ("free", downgrade_to_free now uid w)
        else (tier, w)
      | none => (tier, w)
    ((TIERS_get tw.1).getD tierFree, tw.2)

/-- Embeds `is_subscription_active` (manage_feeds.py): privileged identities always
active; free tier always active; a paid tier is active iff its expiry is set
and strictly in the future. Reads only; never persists a downgrade. -/
def is_subscription_active (now : Int) (uid : String) (w : World) : Bool × World :=
  if is_privileged uid w then (true, w)
  else
    let (sub, w) := get_subscription now uid w
    if sub.tier == "free" then (true, w)
    else
      match sub.expires_at with
      | none => (false, w)
      | some expiry => (decide (now < expiry), w)

/-- Embeds `upgrade_subscription` (manage_feeds.py): rejects unknown tier names,
otherwise overwrites the subscription (keeping `created_at`). -/
def upgrade_subscription (now : Int) (uid tier : String)
    (stripe_customer_id stripe_subscription_id : Option String) (expires_at : Int)
    (w : World) : Bool × World :=
  if (TIERS_get tier).isNone then (false, w)
  else
    let st := ensure_user now uid w.state
    let u := (getEntry st uid).getD (defaultUser now)
    let u' :=
      { u with subscription :=
          { tier := tier
            stripe_customer_id := stripe_customer_id
            stripe_subscription_id := stripe_subscription_id
            expires_at := some expires_at
            created_at := u.subscription.created_at } }
    (true, { w with state := setEntry st uid u' })

/-- Embeds `record_payment` (manage_feeds.py): unconditionally appends a payment
record to the analytics log. -/
def record_payment (now : Int) (uid : String) (amount : Int)
    (payment_id : Option String) (w : World) : World :=
  { w with analytics :=
      { w.analytics with payments := w.analytics.payments ++
          [{ user_id := uid
             username := get_username_by_user_id uid w
             amount := amount
             currency := "XTR"
             payment_id := payment_id
             timestamp := now }] } }

/-- Embeds `record_event` (manage_feeds.py). -/
def record_event (now : Int) (event_type : String) (uid details : Option String)
    (w : World) : World :=
  { w with analytics :=
      { w.analytics with events := w.analytics.events ++
          [{ type := event_type, user_id := uid, details := details, timestamp := now }] } }

/-- One `k=v` item of the signature header: Python `item.split("=")` feeding
`dict(...)`, which raises (caught, yielding `False`) unless exactly two parts. -/
def parseSigItem (item : String) : Option (String × String) :=
  match strSplitOnChar '=' item with
  | [k, v] => some (k, v)
  | _ => none

/-- Embeds `dict(item.split("=") for item in signature.split(","))` in
`verify_webhook_signature` (stripe_webhook.py); `none` is the exception path. -/
def parseSigHeader (sig : String) : Option (List (String × String)) :=
  (strSplitOnChar ',' sig).mapM parseSigItem

/-- Embeds `dict` lookup over the parsed header items: a later duplicate key wins. -/
def sigGet (pairs : List (String × String)) (k : String) : Option String :=
  getEntry pairs.reverse k

/-- Decimal digit-string to `Nat`, `none` when empty or non-digit. -/
def parseDigits (cs : List Char) : Option Nat :=
  if cs ≠ [] ∧ cs.all Char.isDigit then
    some (cs.foldl (fun a c => 10 * a + (c.toNat - Char.toNat '0')) 0)
  else none

/-- Python `int(s)` on a canonical decimal literal (optional sign then digits);
`none` is the `ValueError` path. -/
def parseInt (s : String) : Option Int :=
  match s.data with
  | '-' :: rest => (parseDigits rest).map (fun n => -(n : Int))
  | '+' :: rest => (parseDigits rest).map (fun n => (n : Int))
  | cs => (parseDigits cs).map (fun n => (n : Int))

/-- Embeds `verify_webhook_signature` (stripe_webhook.py). `hmacHex secret msg` is
the hex HMAC-SHA256 digest (the external `hmac`/`hashlib` primitive);
`hmac.compare_digest` is equality. Returns `false` when the secret is
unconfigured, the header is malformed or lacks a truthy `t`/`v1`, the
timestamp is more than 300 seconds from `now` in either direction, or the
recomputed digest of `"{t}.{payload}"` differs from `v1`. -/
def verify_webhook_signature (hmacHex : String → String → String)
    (secret : Option String) (now : Int) (payload signature : String) : Bool :=
  if !truthyOpt secret then false
  else
    match parseSigHeader signature with
    | none => false
    | some sig_parts =>
      let timestamp := sigGet sig_parts "t"
      let v1_signature := sigGet sig_parts "v1"
      if !(truthyOpt timestamp && truthyOpt v1_signature) then false
      else
        match parseInt (pyStr timestamp) with
        | none => false
        | some t =>
          if 300 < |now - t| then false
          else
            let signed_payload := pyStr timestamp ++ "." ++ payload
            hmacHex (pyStr secret) signed_payload == pyStr v1_signature

/-- Python truthiness of an optional integer (`None` and `0` are falsy). -/
def truthyIntOpt : Option Int → Bool
  | none => false
  | some n => !(n == 0)

/-- The `data.object` of a webhook event envelope: the fields the four
handlers in stripe_webhook.py read, each optional as under `dict.get`. -/
structure StripeObject where
  metadata_telegram_user_id : Option String
  metadata_tier : Option String
  subscription : Option String
  customer : Option String
  id : Option String
  status : Option String
  current_period_end : Option Int
deriving Repr, DecidableEq

/-- A webhook event envelope `{type, data: {object}}`. -/
structure StripeEvent where
  type : String
  object : StripeObject
deriving Repr, DecidableEq

/-- Embeds `handle_checkout_completed` (stripe_webhook.py): requires truthy identity,
tier and subscription reference; computes expiry as now + 30 days and calls
`upgrade_subscription`. The Telegram notification is external and dropped. -/
def handle_checkout_completed (now : Int) (event : StripeEvent) (w : World) :
    Bool × World :=
  let session := event.object
  let telegram_user_id := session.metadata_telegram_user_id
  let tier := session.metadata_tier
  let subscription_id := session.subscription
  let customer_id := session.customer
  if !(truthyOpt telegram_user_id && truthyOpt tier && truthyOpt subscription_id) then
    (false, w)
  else
    let expires_at := now + 30 * 86400
    upgrade_subscription now (pyStr telegram_user_id) (pyStr tier)
      customer_id subscription_id expires_at w

/-- Embeds `handle_subscription_updated` (stripe_webhook.py). -/
def handle_subscription_updated (now : Int) (event : StripeEvent) (w : World) :
    Bool × World :=
  let subscription := event.object
  let telegram_user_id := subscription.metadata_telegram_user_id
  let tier := subscription.metadata_tier.getD "basic"
  if !truthyOpt telegram_user_id then (false, w)
  else if subscription.status == some "active" then
    let current_period_end := subscription.current_period_end
    let expires_at :=
      if truthyIntOpt current_period_end then current_period_end.getD 0
      else now + 30 * 86400
    upgrade_subscription now (pyStr telegram_user_id) tier
      subscription.customer subscription.id expires_at w
  else (true, w)

/-- Embeds `handle_subscription_deleted` (stripe_webhook.py): downgrade to free.
The Telegram notification is external and dropped. -/
def handle_subscription_deleted (now : Int) (event : StripeEvent) (w : World) :
    Bool × World :=
  let telegram_user_id := event.object.metadata_telegram_user_id
  if !truthyOpt telegram_user_id then (false, w)
  else (true, downgrade_to_free now (pyStr telegram_user_id) w)

/-- Embeds `handle_payment_failed` (stripe_webhook.py): scans accounts for the
customer reference and sends a notification (external); mutates no persisted
state and always reports success. -/
def handle_payment_failed (_now : Int) (_event : StripeEvent) (w : World) :
    Bool × World :=
  (true, w)

/-- Embeds `process_webhook_event` (stripe_webhook.py): route by event type; unknown
types are accepted and ignored. -/
def process_webhook_event (now : Int) (event : StripeEvent) (w : World) :
    Bool × World :=
  if event.type = "checkout.session.completed" then
    handle_checkout_completed now event w
  else if event.type = "customer.subscription.updated" then
    handle_subscription_updated now event w
  else if event.type = "customer.subscription.deleted" then
    handle_subscription_deleted now event w
  else if event.type = "invoice.payment_failed" then
    handle_payment_failed now event w
  else (true, w)

/-- An externally observable action of the message router
(substack_to_telegram.py): a Telegram send, or the invocation of a command
handler from the dispatch table. Handler bodies are separate functions with
their own dedicated entry points; the router claims concern the pipeline up
to dispatch, so an invocation is recorded as a `runHandler` effect. -/
inductive Effect
  | send (chat_id text : String)
  | runHandler (command args : String)
deriving Repr, DecidableEq

/-- The `successful_payment` sub-dict of a Telegram message, with the fields
`handle_successful_payment` reads (via `.get` with these defaults). -/
structure SuccessfulPayment where
  total_amount : Int
  currency : String
  invoice_payload : String
  telegram_payment_charge_id : String
deriving Repr, DecidableEq

/-- An inbound Telegram message, with the fields `handle_message` reads. -/
structure TgMessage where
  chat_id : String
  from_id : String
  from_username : Option String
  from_first_name : Option String
  text : String
  successful_payment : Option SuccessfulPayment
deriving Repr, DecidableEq

/-- Embeds `PRO_DURATION_DAYS` (substack_to_telegram.py). -/
def PRO_DURATION_DAYS : Nat := 30

/-- Embeds `handle_successful_payment` (substack_to_telegram.py): a Telegram Stars
payment records a PaymentRecord and an analytics event, then upgrades the
payer to pro for `PRO_DURATION_DAYS` from now, unconditionally. -/
def handle_successful_payment (now : Int) (m : TgMessage) (w : World) :
    World × List Effect :=
  let chat_id := m.chat_id
  let user_id := m.from_id
  let p := m.successful_payment.getD ⟨0, "", "", ""⟩
  if p.invoice_payload == "test_payment" then
    (w, [.send chat_id
      "✅ <b>Test Payment Successful!</b>\n\nThe payment flow is working correctly."])
  else if strStartsWith p.invoice_payload "pro_subscription_" then
    let w := record_payment now user_id p.total_amount (some p.telegram_payment_charge_id) w
    let w := record_event now "subscription_purchase" (some user_id)
      (some ("Pro " ++ toString PRO_DURATION_DAYS ++ " days")) w
    let expires_at := now + (PRO_DURATION_DAYS : Int) * 86400
    let r := upgrade_subscription now user_id "pro" none
      (some ("telegram_stars_" ++ p.telegram_payment_charge_id)) expires_at w
    (r.2, [.send chat_id
      ("🎉 <b>Welcome to Pro!</b>\n\nYour subscription is active for "
        ++ toString PRO_DURATION_DAYS
        ++ " days.\n\n<b>You now have:</b>\n• Up to 50 feeds\n• AI-powered SCQR summaries\n\nEnjoy! 📚")])
  else (w, [])

/-- The keys of the `handlers` dispatch dict in `handle_message`. -/
def KNOWN_COMMANDS : List String :=
  ["/start", "/help", "/feedlist", "/addfeed", "/removefeed", "/digest",
   "/dailydigest", "/status", "/upgrade", "/format", "/settime", "/owner"]

/-- Python `text.split(maxsplit=1)` on already-stripped text: first
whitespace-delimited token and the remainder. -/
def splitFirstToken (s : String) : String × String :=
  let cs := s.data
  let tok : List Char := cs.takeWhile (fun c => !c.isWhitespace)
  let rest : List Char := (cs.dropWhile (fun c => !c.isWhitespace)).dropWhile Char.isWhitespace
  (⟨tok⟩, ⟨rest⟩)

/-- Embeds `handle_message` (substack_to_telegram.py): payment updates are routed
first; then the sender's handle is registered and a missing owner is
auto-claimed; then the block check, then (for non-privileged identities) the
`"command"` rate limit, then command parsing and dispatch. -/
def handle_message (now : Int) (m : TgMessage) (w : World) : World × List Effect :=
  if m.successful_payment.isSome then handle_successful_payment now m w
  else
    let chat_id := m.chat_id
    let user_id := m.from_id
    let w := register_user now user_id m.from_username m.from_first_name w
    let w := if !truthyOpt (get_owner_id w) then set_owner_id user_id w else w
    let text := strTrim m.text
    let br := is_user_blocked now user_id w
    let w := br.2
    if br.1.1 then (w, [.send chat_id ("⛔ " ++ pyStr br.1.2)])
    else
      let cr : (Bool × Option String) × World :=
        if !is_privileged user_id w then check_rate_limit now user_id "command" w
        else ((true, none), w)
      let w := cr.2
      if !cr.1.1 then (w, [.send chat_id ("⚠️ " ++ pyStr cr.1.2)])
      else if !strStartsWith text "/" then (w, [])
      else
        let parts := splitFirstToken text
        let command : String := ⟨(strToLower parts.1).data.takeWhile (fun c => !(c == '@'))⟩
        let args := parts.2
        if KNOWN_COMMANDS.contains command then (w, [.runHandler command args])
        else (w, [.send chat_id "Unknown command. Try /help"])

/-- The record `downgrade_to_free` stores for a non-privileged account:
subscription reset to free, feeds truncated to the free quota when over it. -/
def dgUser (u : UserRec) : UserRec :=
  let u1 := { u with subscription :=
      { u.subscription with tier := "free", expires_at := none, stripe_subscription_id := none } }
  if tierFree.max_feeds < u.feeds.length then
    { u1 with feeds := u.feeds.take tierFree.max_feeds }
  else u1

/-- The state `downgrade_to_free` leaves for a non-privileged identity. -/
def dgState (now : Int) (uid : String) (st : List (String × UserRec)) :
    List (String × UserRec) :=
  setEntry (ensure_user now uid st) uid (dgUser ((getEntry st uid).getD (defaultUser now)))

/-- The stored timestamp list of one action-class key for one identity. -/
def tsOf (w : World) (uid : String) (key : RlKey) : List Int :=
  match getEntry w.state uid with
  | some u => u.rate_limits.get key
  | none => []

/-- Iterate `check_rate_limit` for a fixed identity and action class over a
sequence of clock readings, collecting the clock values of the admitted
calls. -/
def rlRun (uid action : String) : World → List Int → World × List Int
  | w, [] => (w, [])
  | w, n :: ns =>
    let r := check_rate_limit n uid action w
    let rest := rlRun uid action r.2 ns
    (rest.1, (if r.1.1 then [n] else []) ++ rest.2)

/-- A fresh world: no accounts, no owner, no admins, empty logs. -/
def w0 : World :=
  { state := []
    config := { owner_id := none, admins := [] }
    usernameMap := []
    analytics := { payments := [], events := [] } }

/-- An account holding a paid subscription that expired at instant 100. -/
def proUser : UserRec :=
  { defaultUser 0 with subscription :=
      { tier := "pro"
        stripe_customer_id := some "cus_1"
        stripe_subscription_id := some "sub_1"
        expires_at := some 100
        created_at := 0 } }

/-- A world holding only the expired-pro account `"1"`. -/
def wPro : World := { w0 with state := [("1", proUser)] }

/-- An account whose command-timestamp list is already at the ceiling. -/
def rlUser : UserRec :=
  { defaultUser 0 with rate_limits :=
      { command_timestamps := [1, 2, 3, 4, 5, 6, 7, 8, 9, 10]
        feed_add_timestamps := []
        digest_request_timestamps := [] } }

/-- A world holding only the rate-saturated account `"5"`. -/
def wRL : World := { w0 with state := [("5", rlUser)] }

/-- An account with five feeds, over the free quota. -/
def feedsUser : UserRec :=
  { defaultUser 0 with feeds := ["a", "b", "c", "d", "e"] }

/-- A world holding only the five-feed account `"8"`. -/
def wFeeds : World := { w0 with state := [("8", feedsUser)] }

/-- A blocked account. -/
def blockedUser : UserRec :=
  { defaultUser 0 with security :=
      { blocked := true, block_reason := some "abuse", failed_attempts := 0 } }

/-- A world holding only the blocked account `"42"`. -/
def wBlocked : World := { w0 with state := [("42", blockedUser)] }

/-- A command message from the blocked identity `"42"`. -/
def msg42 : TgMessage :=
  { chat_id := "42"
    from_id := "42"
    from_username := some "bob"
    from_first_name := none
    text := "/digest"
    successful_payment := none }

/-- A complete, well-formed `checkout.session.completed` event. -/
def cexEvent : StripeEvent :=
  { type := "checkout.session.completed"
    object :=
      { metadata_telegram_user_id := some "42"
        metadata_tier := some "pro"
        subscription := some "sub_1"
        customer := some "cus_1"
        id := none
        status := none
        current_period_end := none } }

/-- A stand-in keyed hex-digest function for instantiating the
signature-verification theorem on concrete inputs. -/
def testHmac (secret msg : String) : String := secret ++ "|" ++ msg

/-- A world with owner `"1"` and one admin `"2"`. -/
def adminWorld : World :=
  { w0 with config := { owner_id := some "1", admins := ["2"] } }

/- ------------------------------------------------------------------ -/
/- Store lemmas                                                        -/
/- ------------------------------------------------------------------ -/

theorem getEntry_append_self {α : Type} (st : List (String × α)) (k : String) (v : α)
    (h : getEntry st k = none) : getEntry (st ++ [(k, v)]) k = some v := by
  induction st with
  | nil => simp [getEntry]
  | cons p rest ih =>
    obtain ⟨a, b⟩ := p
    by_cases hk : a = k
    · simp [getEntry, hk] at h
    · simpa [getEntry, hk] using ih (by simpa [getEntry, hk] using h)

theorem getEntry_setEntry_self {α : Type} (st : List (String × α)) (k : String) (v : α) :
    getEntry (setEntry st k v) k = some v := by
  induction st with
  | nil => simp [getEntry, setEntry]
  | cons p rest ih =>
    obtain ⟨a, b⟩ := p
    by_cases hk : a = k
    · simp [getEntry, setEntry, hk]
    · simpa [getEntry, setEntry, hk] using ih

theorem setEntry_eq_self {α : Type} (st : List (String × α)) (k : String) (v : α)
    (h : getEntry st k = some v) : setEntry st k v = st := by
  induction st with
  | nil => simp [getEntry] at h
  | cons p rest ih =>
    obtain ⟨a, b⟩ := p
    by_cases hk : a = k
    · have hv : b = v := by simpa [getEntry, hk] using h
      simp [setEntry, hk, hv]
    · simpa [setEntry, hk] using ih (by simpa [getEntry, hk] using h)

theorem setEntry_setEntry {α : Type} (st : List (String × α)) (k : String) (v v' : α) :
    setEntry (setEntry st k v) k v' = setEntry st k v' := by
  induction st with
  | nil => simp [setEntry]
  | cons p rest ih =>
    obtain ⟨a, b⟩ := p
    by_cases hk : a = k
    · simp [setEntry, hk]
    · simpa [setEntry, hk] using ih

theorem ensure_user_of_mem (now : Int) (uid : String) (st : List (String × UserRec))
    (u : UserRec) (h : getEntry st uid = some u) : ensure_user now uid st = st := by
  simp [ensure_user, h]

theorem getEntry_ensure_user (now : Int) (uid : String) (st : List (String × UserRec)) :
    getEntry (ensure_user now uid st) uid =
      some ((getEntry st uid).getD (defaultUser now)) := by
  unfold ensure_user
  cases h : getEntry st uid with
  | some u => simp [h]
  | none => simpa [h] using getEntry_append_self st uid (defaultUser now) h

/- ------------------------------------------------------------------ -/
/- Privilege and frame lemmas                                          -/
/- ------------------------------------------------------------------ -/

theorem is_privileged_of_config (uid : String) (w w' : World)
    (h : w'.config = w.config) : is_privileged uid w' = is_privileged uid w := by
  simp [is_privileged, is_owner, is_admin, h]

theorem check_rate_limit_config (now : Int) (uid action : String) (w : World) :
    ((check_rate_limit now uid action w).2).config = w.config := by
  unfold check_rate_limit
  split
  · rfl
  · split
    · rfl
    · dsimp only
      split <;> rfl

theorem downgrade_to_free_config (now : Int) (uid : String) (w : World) :
    ((downgrade_to_free now uid w)).config = w.config := by
  unfold downgrade_to_free
  split
  · rfl
  · dsimp only
    split <;> rfl

/- ------------------------------------------------------------------ -/
/- C6: owner claim is first-writer-wins                                -/
/- ------------------------------------------------------------------ -/

/-- C6: `set_owner_id` stores the identity only when no owner is set (Python
truthiness: `None` or `""`); when a non-empty owner is stored, any later
`set_owner_id` call leaves the whole world unchanged, so a non-empty owner is
never overwritten; consequently a second claim after a successful one is a
no-op. -/
theorem set_owner_id_first_writer :
    (∀ uid w, truthyOpt (get_owner_id w) = false →
        (set_owner_id uid w).config.owner_id = some uid) ∧
    (∀ uid w o, w.config.owner_id = some o → o ≠ "" → set_owner_id uid w = w) ∧
    (∀ uid uid' w, truthyOpt (get_owner_id w) = false → uid ≠ "" →
        set_owner_id uid' (set_owner_id uid w) = set_owner_id uid w) := by
  refine ⟨?_, ?_, ?_⟩
  · intro uid w h
    simp only [get_owner_id] at h
    simp [set_owner_id, h]
  · intro uid w o h1 h2
    simp [set_owner_id, truthyOpt, h1, h2]
  · intro uid uid' w h hne
    simp only [get_owner_id] at h
    have h1 : set_owner_id uid w =
        { w with config := { w.config with owner_id := some uid } } := by
      simp [set_owner_id, h]
    rw [h1]
    simp [set_owner_id, truthyOpt, hne]

/-- Witness for C6 at concrete inputs. -/
theorem set_owner_id_first_writer_witness :
    (set_owner_id "7" w0).config.owner_id = some "7" ∧
    set_owner_id "9" (set_owner_id "7" w0) = set_owner_id "7" w0 :=
  ⟨set_owner_id_first_writer.1 "7" w0 (by decide),
   set_owner_id_first_writer.2.2 "7" "9" w0 (by decide) (by decide)⟩

/- ------------------------------------------------------------------ -/
/- C8: rate-limit configuration ordering (corrected)                   -/
/- ------------------------------------------------------------------ -/

/-- C8 counterexample: the general-command class does NOT have the strictly
largest ceiling (the feed-add class's ceiling 20 exceeds its 10), and the
digest-request class does NOT have the strictly largest window (it shares
3600 s with the feed-add class). -/
theorem rate_limit_ordering_counterexample :
    commands_per_minute < feeds_add_per_hour ∧
    (limits_config "feed_add").map (fun p => p.2.1) =
      (limits_config "digest_request").map (fun p => p.2.1) := by
  constructor
  · decide
  · rfl

/-- C8 (amended): the three shipped action classes carry pairwise distinct
(window, ceiling) pairs; the general-command class has the strictly smallest
window; the digest-request class has the strictly smallest ceiling; the
feed-add class has the strictly largest ceiling; the digest-request and
feed-add classes share the largest window. -/
theorem rate_limit_ordering :
    limits_config "command" = some (.command_ts, 60, commands_per_minute) ∧
    limits_config "feed_add" = some (.feed_add_ts, 3600, feeds_add_per_hour) ∧
    limits_config "digest_request" = some (.digest_req_ts, 3600, digest_requests_per_hour) ∧
    ((60 : Int), commands_per_minute) ≠ ((3600 : Int), feeds_add_per_hour) ∧
    ((60 : Int), commands_per_minute) ≠ ((3600 : Int), digest_requests_per_hour) ∧
    ((3600 : Int), feeds_add_per_hour) ≠ ((3600 : Int), digest_requests_per_hour) ∧
    (60 : Int) < 3600 ∧
    digest_requests_per_hour < commands_per_minute ∧
    digest_requests_per_hour < feeds_add_per_hour ∧
    commands_per_minute < feeds_add_per_hour := by
  refine ⟨rfl, rfl, rfl, ?_, ?_, ?_, ?_, ?_, ?_, ?_⟩ <;> decide

/- ------------------------------------------------------------------ -/
/- C5: downgrade_to_free                                               -/
/- ------------------------------------------------------------------ -/

theorem downgrade_to_free_eq (now : Int) (uid : String) (w : World)
    (hp : is_privileged uid w = false) :
    downgrade_to_free now uid w = { w with state := dgState now uid w.state } := by
  unfold downgrade_to_free dgState dgUser
  rw [hp]
  simp only [Bool.false_eq_true, if_false]
  rw [getEntry_ensure_user]
  dsimp only [Option.getD_some]
  split
  · rw [setEntry_setEntry]
  · rfl

theorem dgState_def (now : Int) (uid : String) (st : List (String × UserRec)) :
    dgState now uid st =
      setEntry (ensure_user now uid st) uid
        (dgUser ((getEntry st uid).getD (defaultUser now))) := rfl

theorem dgUser_eq (u : UserRec) :
    dgUser u =
      { u with
        feeds := if tierFree.max_feeds < u.feeds.length then u.feeds.take tierFree.max_feeds
                 else u.feeds
        subscription := { u.subscription with
                          tier := "free", expires_at := none, stripe_subscription_id := none } } := by
  unfold dgUser
  dsimp only
  split <;> rfl

theorem dgUser_feeds_le (u : UserRec) :
    (dgUser u).feeds.length ≤ tierFree.max_feeds := by
  rw [dgUser_eq]
  dsimp only
  split
  · simp [List.length_take]
  · next h => exact Nat.le_of_not_lt h

theorem dgUser_idem (u : UserRec) : dgUser (dgUser u) = dgUser u := by
  obtain ⟨fs, dt, ls, sf, cp, sub, rl, sec⟩ := u
  obtain ⟨t, sc, ss, ea, ca⟩ := sub
  simp only [dgUser_eq]
  by_cases h : tierFree.max_feeds < fs.length
  · simp [h, List.length_take]
  · simp [h]

/-- C5: `downgrade_to_free` is idempotent (a second application, at any later
clock reading, leaves the world exactly as after the first), is the identity
on a world where the identity is privileged (owner or admin), and stores for
a present non-privileged account exactly the first `tierFree.max_feeds` (3)
feeds in their original insertion order. -/
theorem downgrade_to_free_spec :
    (∀ now now' uid w,
        downgrade_to_free now' uid (downgrade_to_free now uid w) =
          downgrade_to_free now uid w) ∧
    (∀ now uid w, is_privileged uid w = true → downgrade_to_free now uid w = w) ∧
    (∀ now uid w u, is_privileged uid w = false → getEntry w.state uid = some u →
        (getEntry (downgrade_to_free now uid w).state uid).map UserRec.feeds =
          some (u.feeds.take tierFree.max_feeds)) := by
  have hpriv : ∀ now uid w, is_privileged uid w = true → downgrade_to_free now uid w = w := by
    intro now uid w hp
    simp [downgrade_to_free, hp]
  refine ⟨?_, hpriv, ?_⟩
  · intro now now' uid w
    by_cases hp : is_privileged uid w = true
    · rw [hpriv now uid w hp]
      exact hpriv now' uid w hp
    · have hp' : is_privileged uid w = false := by
        cases h : is_privileged uid w
        · rfl
        · exact absurd h hp
      rw [downgrade_to_free_eq now uid w hp']
      have hp1 : is_privileged uid ({ w with state := dgState now uid w.state }) = false := by
        rw [is_privileged_of_config uid w ({ w with state := dgState now uid w.state }) rfl]
        exact hp'
      rw [downgrade_to_free_eq now' uid ({ w with state := dgState now uid w.state }) hp1]
      have hget : getEntry (dgState now uid w.state) uid =
          some (dgUser ((getEntry w.state uid).getD (defaultUser now))) :=
        getEntry_setEntry_self _ _ _
      have hstate : dgState now' uid (dgState now uid w.state) = dgState now uid w.state := by
        rw [dgState_def now' uid, ensure_user_of_mem now' uid _ _ hget, hget]
        dsimp only [Option.getD_some]
        rw [dgUser_idem]
        exact setEntry_eq_self _ _ _ hget
      rw [hstate]
  · intro now uid w u hp hu
    rw [downgrade_to_free_eq now uid w hp]
    dsimp only
    rw [dgState_def, getEntry_setEntry_self, hu]
    dsimp only [Option.getD_some]
    rw [dgUser_eq]
    dsimp only
    split
    · rfl
    · next h => simp [List.take_of_length_le (Nat.le_of_not_lt h)]

/-- Witness for C5 at concrete inputs: downgrading the five-feed account
keeps exactly its first three feeds. -/
theorem downgrade_to_free_spec_witness :
    (getEntry (downgrade_to_free 0 "8" wFeeds).state "8").map UserRec.feeds =
      some ["a", "b", "c"] := by
  have h := downgrade_to_free_spec.2.2 0 "8" wFeeds feedsUser (by decide) (by decide)
  simpa using h

/- ------------------------------------------------------------------ -/
/- C10: a denied admission mutates nothing                             -/
/- ------------------------------------------------------------------ -/

theorem check_rate_limit_eq (now : Int) (uid action : String) (w : World)
    (key : RlKey) (win : Int) (maxr : Nat)
    (hp : is_privileged uid w = false)
    (hcfg : limits_config action = some (key, win, maxr)) :
    check_rate_limit now uid action w =
      (let st := ensure_user now uid w.state
       let u := (getEntry st uid).getD (defaultUser now)
       let kept := (u.rate_limits.get key).filter (fun ts => decide (now - ts < win))
       if maxr ≤ kept.length then
         ((false, some ("Rate limit exceeded. Try again in "
            ++ toString (win - (now - kept.headD 0)) ++ " seconds.")),
          { w with state := st })
       else
         let u' := { u with rate_limits := u.rate_limits.set key (kept ++ [now]) }
         ((true, none), { w with state := setEntry st uid u' })) := by
  simp only [check_rate_limit, hp, Bool.false_eq_true, if_false, hcfg]

/-- C10: when a non-privileged, already-present identity is denied by
`check_rate_limit` for a recognized action class (the within-window count is
at or above the ceiling), the persisted world after the call is exactly the
world before it: the stored timestamp list is neither pruned nor appended on
the denial path. -/
theorem check_rate_limit_denied_frame (now : Int) (uid action : String) (w : World)
    (u : UserRec) (key : RlKey) (win : Int) (maxr : Nat)
    (hu : getEntry w.state uid = some u)
    (hp : is_privileged uid w = false)
    (hcfg : limits_config action = some (key, win, maxr))
    (hden : maxr ≤
      ((u.rate_limits.get key).filter (fun ts => decide (now - ts < win))).length) :
    (check_rate_limit now uid action w).1.1 = false ∧
    (check_rate_limit now uid action w).2 = w := by
  rw [check_rate_limit_eq now uid action w key win maxr hp hcfg]
  rw [ensure_user_of_mem now uid w.state u hu]
  dsimp only
  rw [hu]
  dsimp only [Option.getD_some]
  rw [if_pos hden]
  exact ⟨rfl, rfl⟩

/-- Witness for C10 at concrete inputs: the saturated account is denied and
the world is returned untouched. -/
theorem check_rate_limit_denied_frame_witness :
    (check_rate_limit 20 "5" "command" wRL).1.1 = false ∧
    (check_rate_limit 20 "5" "command" wRL).2 = wRL :=
  check_rate_limit_denied_frame 20 "5" "command" wRL rlUser .command_ts 60 10
    (by decide) (by decide) rfl (by decide)

/- ------------------------------------------------------------------ -/
/- C1: lazy expiry (corrected)                                         -/
/- ------------------------------------------------------------------ -/

theorem get_subscription_of_mem (now : Int) (uid : String) (w : World) (u : UserRec)
    (hu : getEntry w.state uid = some u) :
    get_subscription now uid w = (u.subscription, w) := by
  unfold get_subscription
  rw [ensure_user_of_mem now uid w.state u hu]
  dsimp only
  rw [hu]
  rfl

/-- C1 counterexample: on the stored expired-pro account `"1"` (tier `"pro"`,
expiry 100, clock 200, no owner or admins) the claim fails for
`is_subscription_active`: it answers `false` — not the free-tier answer
`true` that the same call gives a free account — and the persisted tier
afterwards is still `"pro"`, not `"free"` as the claim requires. -/
theorem lazy_expiry_counterexample :
    (is_subscription_active 200 "1" wPro).1 = false ∧
    (getEntry (is_subscription_active 200 "1" wPro).2.state "1").map
      (fun v => v.subscription.tier) = some "pro" ∧
    (is_subscription_active 200 "1" { w0 with state := [("1", defaultUser 0)] }).1 = true := by
  refine ⟨by decide, by decide, by decide⟩

/-- C1 (amended): for a stored non-privileged account with tier `"pro"` and
an expiry strictly in the past, a single `get_tier_limits` call returns the
free tier's limits and persists tier `"free"`; `is_subscription_active`
reports the subscription inactive (`false` — unlike the `true` it reports for
a free account) but performs no persistent downgrade: it returns the world
unchanged, leaving the stored tier `"pro"`. -/
theorem lazy_expiry_amended (now : Int) (uid : String) (w : World) (u : UserRec) (e : Int)
    (hu : getEntry w.state uid = some u)
    (htier : u.subscription.tier = "pro")
    (hexp : u.subscription.expires_at = some e)
    (hlt : e < now)
    (hp : is_privileged uid w = false) :
    (get_tier_limits now uid w).1 = tierFree ∧
    (getEntry (get_tier_limits now uid w).2.state uid).map (fun v => v.subscription.tier) =
      some "free" ∧
    (is_subscription_active now uid w).1 = false ∧
    (is_subscription_active now uid w).2 = w := by
  have hsub := get_subscription_of_mem now uid w u hu
  have hgt : get_tier_limits now uid w =
      ((TIERS_get "free").getD tierFree, downgrade_to_free now uid w) := by
    unfold get_tier_limits
    rw [hp]
    simp only [Bool.false_eq_true, if_false, hsub]
    rw [hexp, htier]
    dsimp only
    rw [if_pos (by exact ⟨by decide, hlt⟩)]
  have hact : is_subscription_active now uid w = (false, w) := by
    unfold is_subscription_active
    rw [hp]
    simp only [Bool.false_eq_true, if_false, hsub]
    rw [htier, hexp]
    dsimp only
    rw [if_neg (by decide)]
    simp only [decide_eq_false (not_lt.mpr (le_of_lt hlt))]
  refine ⟨?_, ?_, ?_, ?_⟩
  · rw [hgt]
    rfl
  · rw [hgt]
    dsimp only
    rw [downgrade_to_free_eq now uid w hp]
    dsimp only
    rw [dgState_def, getEntry_setEntry_self, hu]
    dsimp only [Option.getD_some]
    rw [dgUser_eq]
    rfl
  · rw [hact]
  · rw [hact]

/-- Witness for the amended C1 on the concrete expired-pro world. -/
theorem lazy_expiry_amended_witness :
    (get_tier_limits 200 "1" wPro).1 = tierFree ∧
    (getEntry (get_tier_limits 200 "1" wPro).2.state "1").map
      (fun v => v.subscription.tier) = some "free" ∧
    (is_subscription_active 200 "1" wPro).1 = false ∧
    (is_subscription_active 200 "1" wPro).2 = wPro :=
  lazy_expiry_amended 200 "1" wPro proUser 100 (by decide) (by decide) (by decide)
    (by decide) (by decide)

/- ------------------------------------------------------------------ -/
/- C9: add_admin refusal semantics                                     -/
/- ------------------------------------------------------------------ -/

/-- The handle-not-found failure can never coincide with an already-an-admin
failure: the two messages end in different fixed suffixes. -/
theorem notFound_ne_alreadyAdmin (i d : String) :
    usernameNotFoundMsg i ≠ alreadyAdminMsg d := by
  intro h
  have h2 := congrArg (fun s => s.data.reverse[1]?) h
  simp only [usernameNotFoundMsg, alreadyAdminMsg, String.data_append,
    List.reverse_append] at h2
  rw [List.getElem?_append_left (by decide), List.getElem?_append_left (by decide)] at h2
  exact absurd h2 (by decide)

/-- C9: `add_admin` refuses, returning the world unchanged, when the
resolved identity is the current owner or is already an admin; an
unresolvable directory handle yields the not-found failure — provably
distinct from every already-an-admin failure — also without mutation;
otherwise it appends the resolved identity once to the admin list. -/
theorem add_admin_spec :
    (∀ identifier w uid username,
        resolve_admin_identifier identifier w = some (uid, username) →
        is_owner uid w = true →
        add_admin identifier w = ((false, "Cannot add owner as admin."), w)) ∧
    (∀ identifier w uid username,
        resolve_admin_identifier identifier w = some (uid, username) →
        is_owner uid w = false →
        w.config.admins.contains uid = true →
        add_admin identifier w = ((false, alreadyAdminMsg (adminDisplay username uid)), w)) ∧
    (∀ identifier w,
        strStartsWith identifier "@" = true →
        get_user_id_by_username identifier w = none →
        add_admin identifier w = ((false, usernameNotFoundMsg identifier), w) ∧
        ∀ d, usernameNotFoundMsg identifier ≠ alreadyAdminMsg d) ∧
    (∀ identifier w uid username,
        resolve_admin_identifier identifier w = some (uid, username) →
        is_owner uid w = false →
        w.config.admins.contains uid = false →
        (add_admin identifier w).1.1 = true ∧
        (add_admin identifier w).2 =
          { w with config := { w.config with admins := w.config.admins ++ [uid] } }) := by
  refine ⟨?_, ?_, ?_, ?_⟩
  · intro identifier w uid username hres hown
    simp [add_admin, hres, hown]
  · intro identifier w uid username hres hown hmem
    have hmem' : uid ∈ w.config.admins := by simpa using hmem
    simp [add_admin, hres, hown, hmem']
  · intro identifier w hstart hlook
    have hres : resolve_admin_identifier identifier w = none := by
      simp [resolve_admin_identifier, hstart, hlook]
    refine ⟨by simp [add_admin, hres], fun d => notFound_ne_alreadyAdmin identifier d⟩
  · intro identifier w uid username hres hown hmem
    have hmem' : uid ∉ w.config.admins := by simpa using hmem
    refine ⟨?_, ?_⟩ <;> simp [add_admin, hres, hown, hmem']

/-- Witness for C9: adding the unaffiliated identity `"3"` succeeds and
appends it to the admin list. -/
theorem add_admin_spec_witness :
    (add_admin "3" adminWorld).1.1 = true ∧
    (add_admin "3" adminWorld).2.config.admins = ["2", "3"] := by
  have h := add_admin_spec.2.2.2 "3" adminWorld "3" none (by decide) (by decide) (by decide)
  refine ⟨h.1, ?_⟩
  rw [h.2]
  decide

/- ------------------------------------------------------------------ -/
/- C3: webhook signature verification                                  -/
/- ------------------------------------------------------------------ -/

/-- C3: with a configured non-empty secret, `verify_webhook_signature`
returns `false` when the header cannot be parsed, or lacks a truthy `t` or
`v1` field, or when the parsed timestamp differs from `now` by more than 300
seconds in either direction; for a fresh timestamp it returns `true` exactly
when the recomputed digest of `"{t}.{payload}"` under the secret equals the
supplied `v1` — in particular it rejects every mismatched digest and accepts
a correctly signed fresh payload. -/
theorem verify_webhook_signature_spec (hmacHex : String → String → String)
    (secret : String) (now t : Int) (payload hdr : String) (hsec : secret ≠ "") :
    (parseSigHeader hdr = none →
        verify_webhook_signature hmacHex (some secret) now payload hdr = false) ∧
    (∀ pairs, parseSigHeader hdr = some pairs →
        (truthyOpt (sigGet pairs "t") = false ∨ truthyOpt (sigGet pairs "v1") = false) →
        verify_webhook_signature hmacHex (some secret) now payload hdr = false) ∧
    (∀ pairs ts v1, parseSigHeader hdr = some pairs →
        sigGet pairs "t" = some ts → ts ≠ "" →
        sigGet pairs "v1" = some v1 → v1 ≠ "" →
        parseInt ts = some t →
        ((300 < |now - t| →
            verify_webhook_signature hmacHex (some secret) now payload hdr = false) ∧
         (|now - t| ≤ 300 →
            (verify_webhook_signature hmacHex (some secret) now payload hdr = true ↔
              hmacHex secret (ts ++ "." ++ payload) = v1)))) := by
  have htsec : truthyOpt (some secret) = true := by simp [truthyOpt, hsec]
  refine ⟨?_, ?_, ?_⟩
  · intro hph
    simp [verify_webhook_signature, htsec, hph]
  · intro pairs hph hfield
    unfold verify_webhook_signature
    simp only [htsec, Bool.not_true, Bool.false_eq_true, if_false, hph]
    rcases hfield with h | h <;> simp [h]
  · intro pairs ts v1 hph hgt htne hgv hvne hpi
    unfold verify_webhook_signature
    simp only [htsec, Bool.not_true, Bool.false_eq_true, if_false, hph]
    rw [hgt, hgv]
    have htt : truthyOpt (some ts) = true := by simp [truthyOpt, htne]
    have htv : truthyOpt (some v1) = true := by simp [truthyOpt, hvne]
    simp only [htt, htv, Bool.and_self, Bool.not_true, Bool.false_eq_true, if_false]
    have hps : pyStr (some ts) = ts := rfl
    rw [hps, hpi]
    dsimp only
    constructor
    · intro hstale
      rw [if_pos hstale]
    · intro hfresh
      rw [if_neg (not_lt.mpr hfresh)]
      simp [pyStr]

/-- Witness for C3: a correctly signed, fresh payload is accepted. -/
theorem verify_webhook_signature_spec_witness :
    verify_webhook_signature testHmac (some "sec") 150 "body" "t=100,v1=sec|100.body" = true := by
  have h := ((verify_webhook_signature_spec testHmac "sec" 150 100 "body"
      "t=100,v1=sec|100.body" (by decide)).2.2
      [("t", "100"), ("v1", "sec|100.body")] "100" "sec|100.body"
      (by decide) (by decide) (by decide) (by decide) (by decide) (by decide)).2
      (by decide)
  exact h.mpr (by decide)

/- ------------------------------------------------------------------ -/
/- C2: webhook redelivery is NOT idempotent (code bug demonstration)   -/
/- ------------------------------------------------------------------ -/

/-- C2 (demonstration of the divergence): the processing pipeline holds no
previously-seen-reference check. Redelivering the identical verified
`checkout.session.completed` event (subscription reference `"sub_1"`) ten
seconds after its first processing overwrites the stored expiry with the new
processing time plus 30 days (2592000 → 2592010), extending it; and applying
`record_payment` twice with the same external payment reference `"p1"`
appends a second `PaymentRec` instead of short-circuiting. -/
theorem webhook_redelivery_not_idempotent :
    (getEntry (process_webhook_event 0 cexEvent w0).2.state "42").map
      (fun v => v.subscription.expires_at) = some (some 2592000) ∧
    (getEntry (process_webhook_event 10 cexEvent
        (process_webhook_event 0 cexEvent w0).2).2.state "42").map
      (fun v => v.subscription.expires_at) = some (some 2592010) ∧
    (record_payment 0 "42" 100 (some "p1") w0).analytics.payments.length = 1 ∧
    (record_payment 10 "42" 100 (some "p1")
        (record_payment 0 "42" 100 (some "p1") w0)).analytics.payments.length = 2 := by
  refine ⟨by decide, by decide, by decide, by decide⟩

/- ------------------------------------------------------------------ -/
/- C4: sliding-window admission bound                                  -/
/- ------------------------------------------------------------------ -/

theorem limits_config_window_pos (action : String) (key : RlKey) (win : Int) (maxr : Nat)
    (h : limits_config action = some (key, win, maxr)) : 0 < win := by
  unfold limits_config at h
  split_ifs at h <;> simp_all <;> omega

theorem RateLimitsRec.get_set_self (r : RateLimitsRec) (key : RlKey) (l : List Int) :
    (r.set key l).get key = l := by
  cases key <;> rfl

theorem getD_rate_limits_eq_tsOf (now : Int) (uid : String) (w : World) (key : RlKey) :
    ((getEntry w.state uid).getD (defaultUser now)).rate_limits.get key =
      tsOf w uid key := by
  unfold tsOf
  cases h : getEntry w.state uid
  · cases key <;> rfl
  · rfl

theorem tsOf_ensure (now : Int) (uid : String) (w : World) (key : RlKey) :
    tsOf { w with state := ensure_user now uid w.state } uid key = tsOf w uid key := by
  unfold tsOf
  dsimp only
  rw [getEntry_ensure_user]
  cases h : getEntry w.state uid
  · cases key <;> rfl
  · rfl

theorem check_rate_limit_denied_tsOf (now : Int) (uid action : String) (w : World)
    (key : RlKey) (win : Int) (maxr : Nat)
    (hp : is_privileged uid w = false)
    (hcfg : limits_config action = some (key, win, maxr))
    (hlen : maxr ≤ ((tsOf w uid key).filter (fun ts => decide (now - ts < win))).length) :
    (check_rate_limit now uid action w).1.1 = false ∧
    tsOf (check_rate_limit now uid action w).2 uid key = tsOf w uid key := by
  rw [check_rate_limit_eq now uid action w key win maxr hp hcfg]
  dsimp only
  rw [getEntry_ensure_user]
  dsimp only [Option.getD_some]
  rw [getD_rate_limits_eq_tsOf]
  rw [if_pos hlen]
  exact ⟨rfl, tsOf_ensure now uid w key⟩

theorem check_rate_limit_allowed_tsOf (now : Int) (uid action : String) (w : World)
    (key : RlKey) (win : Int) (maxr : Nat)
    (hp : is_privileged uid w = false)
    (hcfg : limits_config action = some (key, win, maxr))
    (hlen : ((tsOf w uid key).filter (fun ts => decide (now - ts < win))).length < maxr) :
    (check_rate_limit now uid action w).1.1 = true ∧
    tsOf (check_rate_limit now uid action w).2 uid key =
      (tsOf w uid key).filter (fun ts => decide (now - ts < win)) ++ [now] := by
  rw [check_rate_limit_eq now uid action w key win maxr hp hcfg]
  dsimp only
  rw [getEntry_ensure_user]
  dsimp only [Option.getD_some]
  rw [getD_rate_limits_eq_tsOf]
  rw [if_neg (Nat.not_le.mpr hlen)]
  refine ⟨rfl, ?_⟩
  unfold tsOf
  dsimp only
  rw [getEntry_setEntry_self]
  exact RateLimitsRec.get_set_self _ key _

theorem rlRun_aux (uid action : String) (key : RlKey) (win : Int) (maxr : Nat)
    (hcfg : limits_config action = some (key, win, maxr)) (hwin : 0 < win) :
    ∀ (ns : List Int) (c : Int) (w : World) (admitted : List Int),
      is_privileged uid w = false →
      List.Chain (· ≤ ·) c ns →
      (∀ x ∈ admitted, x ≤ c) →
      List.Subperm (admitted.filter (fun x => decide (c - x < win))) (tsOf w uid key) →
      (∀ a : Int, admitted.countP (fun x => decide (a < x ∧ x ≤ a + win)) ≤ maxr) →
      ∀ a : Int,
        (admitted ++ (rlRun uid action w ns).2).countP
          (fun x => decide (a < x ∧ x ≤ a + win)) ≤ maxr := by
  intro ns
  induction ns with
  | nil =>
    intro c w admitted hp hch hle hinv hcnt a
    simpa [rlRun] using hcnt a
  | cons n ns ih =>
    intro c w admitted hp hch hle hinv hcnt a
    have hcn : c ≤ n := (List.chain_cons.mp hch).1
    have hch' : List.Chain (· ≤ ·) n ns := (List.chain_cons.mp hch).2
    have hmono_cn : ∀ x : Int, (fun x => decide (n - x < win)) x = true →
        (fun x => decide (c - x < win)) x = true := by
      intro x hx
      simp only [decide_eq_true_eq] at hx ⊢
      omega
    have hp2 : is_privileged uid (check_rate_limit n uid action w).2 = false := by
      rw [is_privileged_of_config uid w _ (check_rate_limit_config n uid action w)]
      exact hp
    by_cases hden :
        maxr ≤ ((tsOf w uid key).filter (fun ts => decide (n - ts < win))).length
    · obtain ⟨hres, hts⟩ :=
        check_rate_limit_denied_tsOf n uid action w key win maxr hp hcfg hden
      have hinv' : List.Subperm (admitted.filter (fun x => decide (n - x < win)))
          (tsOf (check_rate_limit n uid action w).2 uid key) := by
        rw [hts]
        exact ((List.monotone_filter_right admitted hmono_cn).subperm).trans hinv
      have hrec := ih n (check_rate_limit n uid action w).2 admitted hp2 hch'
        (fun x hx => le_trans (hle x hx) hcn) hinv' hcnt a
      simp only [rlRun, hres]
      simpa using hrec
    · have hlen := Nat.lt_of_not_le hden
      obtain ⟨hres, hts⟩ :=
        check_rate_limit_allowed_tsOf n uid action w key win maxr hp hcfg hlen
      have hpn : (fun x : Int => decide (n - x < win)) n = true := by
        simp only [decide_eq_true_eq]
        omega
      have hfeq : admitted.filter (fun x => decide (n - x < win)) =
          (admitted.filter (fun x => decide (c - x < win))).filter
            (fun x => decide (n - x < win)) := by
        rw [List.filter_filter]
        refine List.filter_congr ?_
        intro x hx
        cases h2 : decide (n - x < win)
        · simp
        · simp [hmono_cn x h2]
      have hsp : List.Subperm (admitted.filter (fun x => decide (n - x < win)))
          ((tsOf w uid key).filter (fun x => decide (n - x < win))) := by
        rw [hfeq]
        exact List.Subperm.filter _ hinv
      have hinv' : List.Subperm ((admitted ++ [n]).filter (fun x => decide (n - x < win)))
          (tsOf (check_rate_limit n uid action w).2 uid key) := by
        rw [hts, List.filter_append]
        have hfn : [n].filter (fun x => decide (n - x < win)) = [n] := by
          simp [hwin]
        rw [hfn]
        exact (List.subperm_append_right [n]).mpr hsp
      have hcnt' : ∀ a : Int,
          (admitted ++ [n]).countP (fun x => decide (a < x ∧ x ≤ a + win)) ≤ maxr := by
        intro a
        rw [List.countP_append]
        by_cases hn : (fun x : Int => decide (a < x ∧ x ≤ a + win)) n = true
        · have hn' : a < n ∧ n ≤ a + win := by simpa using hn
          have hmono_an : ∀ x : Int, (fun x => decide (a < x ∧ x ≤ a + win)) x = true →
              (fun x => decide (n - x < win)) x = true := by
            intro x hx
            simp only [decide_eq_true_eq] at hx ⊢
            omega
          have h1 : admitted.countP (fun x => decide (a < x ∧ x ≤ a + win)) ≤
              (admitted.filter (fun x => decide (n - x < win))).length := by
            rw [List.countP_eq_length_filter]
            exact (List.monotone_filter_right admitted hmono_an).length_le
          have h2 : (admitted.filter (fun x => decide (n - x < win))).length ≤
              ((tsOf w uid key).filter (fun x => decide (n - x < win))).length :=
            hsp.length_le
          have h3 : List.countP (fun x : Int => decide (a < x ∧ x ≤ a + win)) [n] ≤ 1 :=
            le_trans (List.countP_le_length _) (by simp)
          omega
        · have h0 : List.countP (fun x : Int => decide (a < x ∧ x ≤ a + win)) [n] = 0 := by
            refine List.countP_eq_zero.mpr ?_
            intro x hx
            rw [List.mem_singleton.mp hx]
            exact hn
          rw [h0]
          simpa using hcnt a
      have hrec := ih n (check_rate_limit n uid action w).2 (admitted ++ [n]) hp2 hch'
        (fun x hx => by
          rcases List.mem_append.mp hx with h | h
          · exact le_trans (hle x h) hcn
          · rw [List.mem_singleton.mp h])
        hinv' hcnt' a
      simp only [rlRun, hres, if_true]
      rw [← List.append_assoc]
      exact hrec

/-- C4: privileged identities are always admitted with the world unchanged;
and for every non-privileged identity and recognized action class, along any
sequence of `check_rate_limit` calls with non-decreasing clock readings —
from any starting world — the admitted calls' timestamps never number more
than the class's configured ceiling within any trailing window-length
interval `(a, a + window]` (the code prunes with a strict inequality, so a
timestamp exactly `window` seconds old falls outside the window). -/
theorem rate_limit_window_bound :
    (∀ now uid action w, is_privileged uid w = true →
        check_rate_limit now uid action w = ((true, none), w)) ∧
    (∀ uid action key win maxr w ns (a : Int),
        limits_config action = some (key, win, maxr) →
        is_privileged uid w = false →
        List.Chain' (· ≤ ·) ns →
        (rlRun uid action w ns).2.countP (fun x => decide (a < x ∧ x ≤ a + win)) ≤ maxr) := by
  constructor
  · intro now uid action w hp
    simp [check_rate_limit, hp]
  · intro uid action key win maxr w ns a hcfg hp hch
    have hwin := limits_config_window_pos action key win maxr hcfg
    cases ns with
    | nil => simp [rlRun]
    | cons n ns =>
      have hchain : List.Chain (· ≤ ·) n (n :: ns) := List.Chain.cons (le_refl n) hch
      have h := rlRun_aux uid action key win maxr hcfg hwin (n :: ns) n w [] hp hchain
        (by intro x hx; simp at hx)
        (by simp [List.nil_subperm])
        (by intro a; simp) a
      simpa using h

theorem chain_replicate_zero (k : Nat) :
    List.Chain' (· ≤ ·) (List.replicate k (0 : Int)) := by
  induction k with
  | zero => simp
  | succ m ih =>
    cases m with
    | zero => simp
    | succ m' =>
      rw [List.replicate_succ, List.replicate_succ]
      refine List.chain'_cons.mpr ⟨le_refl 0, ?_⟩
      rw [← List.replicate_succ]
      exact ih

/-- Witness for C4: twelve command-class calls at clock 0 against a fresh
world admit at most the ceiling of ten inside the trailing minute. -/
theorem rate_limit_window_bound_witness :
    (rlRun "9" "command" w0 (List.replicate 12 0)).2.countP
      (fun x => decide ((-1 : Int) < x ∧ x ≤ -1 + 60)) ≤ 10 :=
  rate_limit_window_bound.2 "9" "command" .command_ts 60 10 w0
    (List.replicate 12 0) (-1) (by decide) (by decide) (chain_replicate_zero 12)

/- ------------------------------------------------------------------ -/
/- C7: blocked identities consume no rate-limit budget                 -/
/- ------------------------------------------------------------------ -/

theorem register_user_state (now : Int) (uid : String) (un fn : Option String)
    (w : World) : (register_user now uid un fn w).state = w.state := by
  unfold register_user
  split <;> rfl

theorem set_owner_id_state (uid : String) (w : World) :
    (set_owner_id uid w).state = w.state := by
  unfold set_owner_id
  split <;> rfl

theorem is_user_blocked_of_mem (now : Int) (uid : String) (w : World) (u : UserRec)
    (hu : getEntry w.state uid = some u) :
    is_user_blocked now uid w =
      (if u.security.blocked then (true, u.security.block_reason) else (false, none), w) := by
  unfold is_user_blocked
  rw [ensure_user_of_mem now uid w.state u hu]
  dsimp only
  rw [hu]
  dsimp only [Option.getD_some]
  split <;> rfl

/-- C7: a non-payment message from a stored blocked identity is answered
with exactly one send reporting the stored block reason, and `handle_message`
returns before `check_rate_limit` is consulted: the persisted account store —
and with it every rate-limit timestamp list — is exactly unchanged, and no
command handler is dispatched. -/
theorem blocked_skips_rate_limit (now : Int) (m : TgMessage) (w : World) (u : UserRec)
    (hnp : m.successful_payment = none)
    (hu : getEntry w.state m.from_id = some u)
    (hb : u.security.blocked = true) :
    (handle_message now m w).2 =
      [Effect.send m.chat_id ("⛔ " ++ pyStr u.security.block_reason)] ∧
    (handle_message now m w).1.state = w.state := by
  unfold handle_message
  rw [hnp]
  simp only [Option.isSome_none, Bool.false_eq_true, if_false]
  set wA := register_user now m.from_id m.from_username m.from_first_name w with hwA
  set wB := (if !truthyOpt (get_owner_id wA) then set_owner_id m.from_id wA else wA) with hwB
  have hAstate : wA.state = w.state := by
    rw [hwA]
    exact register_user_state now m.from_id m.from_username m.from_first_name w
  have hstateB : wB.state = w.state := by
    rw [hwB]
    split
    · rw [set_owner_id_state]
      exact hAstate
    · exact hAstate
  have huB : getEntry wB.state m.from_id = some u := by
    rw [hstateB]
    exact hu
  rw [is_user_blocked_of_mem now m.from_id wB u huB]
  simp only [hb, if_true]
  exact ⟨trivial, hstateB⟩

/-- Witness for C7: the blocked identity `"42"` is answered with its stored
reason and the account store is untouched. -/
theorem blocked_skips_rate_limit_witness :
    (handle_message 0 msg42 wBlocked).2 = [Effect.send "42" "⛔ abuse"] ∧
    (handle_message 0 msg42 wBlocked).1.state = wBlocked.state := by
  have h := blocked_skips_rate_limit 0 msg42 wBlocked blockedUser rfl (by decide) rfl
  exact ⟨h.1.trans (by decide), h.2⟩

end SubstackDigest
